import Mathlib

/-!
Verification of the OpenShift Cost Management extractor
(`ryuk132/projeto_trainee_python`).

The development shallowly embeds the data-collection and flattening core of
the scripts (primarily `backup_codigos/OS_Costs_Daily_Duplicadas.py`, whose
`OpenShiftCostAPIClient` / `ExcelFormatterFixed` classes contain the canonical
pagination loop and report builders, together with the config classes of
`backup_codigos/OS_Costs_Daily.py` and
`codigos/openshift_cost_extractor_v6_0_2_FIXED.py`).

JSON values are modelled by the inductive `JVal`; Python `dict.get`,
truthiness and the `x or y` idiom are modelled by `objGetD`, `truthy` and
`pyOr`.  Code that would raise a Python exception (e.g. calling `.get` on a
non-dict, or iterating a non-iterable) is modelled in `Option`, with `none`
standing for the raised exception.  External library calls that the scripts
treat as opaque (pandas date parsing/formatting, `str()` rendering) are
abstracted into a record `PyEnv` of uninterpreted total functions; every
theorem is proved for an arbitrary `PyEnv`.
-/

namespace OSCost

/-- JSON values as delivered by `resp.json()`.  Numbers are modelled as
rationals (Python's `json` module produces `int`/`float`; the scripts never
round, and the claims under study only distinguish zero/non-zero and exact
pass-through, which ℚ captures).  Python `None` and JSON `null` are the same
object and are both modelled by `JVal.null`. -/
inductive JVal where
  | null
  | num (q : ℚ)
  | str (s : String)
  | bool (b : Bool)
  | arr (xs : List JVal)
  | obj (fields : List (String × JVal))

/-- Structural equality on `JVal`, mirroring Python `==` on parsed JSON
trees (used only by the pandas `drop_duplicates` model). -/
def JVal.beq : JVal → JVal → Bool
  | .null, .null => true
  | .num a, .num b => decide (a = b)
  | .str a, .str b => a == b
  | .bool a, .bool b => a == b
  | .arr xs, .arr ys => beqList xs ys
  | .obj xs, .obj ys => beqFields xs ys
  | _, _ => false
where
  beqList : List JVal → List JVal → Bool
    | [], [] => true
    | x :: xs, y :: ys => JVal.beq x y && beqList xs ys
    | _, _ => false
  beqFields : List (String × JVal) → List (String × JVal) → Bool
    | [], [] => true
    | (k₁, v₁) :: xs, (k₂, v₂) :: ys => k₁ == k₂ && JVal.beq v₁ v₂ && beqFields xs ys
    | _, _ => false

instance : BEq JVal := ⟨JVal.beq⟩

/-- Python truthiness of a JSON value (`bool(v)`). -/
def truthy : JVal → Bool
  | .null => false
  | .num q => decide (q ≠ 0)
  | .str s => decide (s ≠ "")
  | .bool b => b
  | .arr xs => !xs.isEmpty
  | .obj fs => !fs.isEmpty

/-- Python `a or b`: `a` if truthy, else `b`. -/
def pyOr (a b : JVal) : JVal := if truthy a then a else b

/-- The list `fs` viewed as a Python dict: `dict.get(k, d)` (first binding wins,
as Python dicts have unique keys). -/
def objGetD (fs : List (String × JVal)) (k : String) (d : JVal) : JVal :=
  (fs.lookup k).getD d

/-- Python `dict.get` on an arbitrary value: raises `AttributeError`
(modelled as `none`) unless the receiver is a dict. -/
def dictGet (v : JVal) (k : String) (d : JVal) : Option JVal :=
  match v with
  | .obj fs => some (objGetD fs k d)
  | _ => none

/-- Python `for x in v`: lists iterate their elements, strings their
characters, dicts their keys; anything else raises `TypeError`. -/
def pyIter : JVal → Option (List JVal)
  | .arr xs => some xs
  | .str s => some (s.toList.map (fun c => .str (String.mk [c])))
  | .obj fs => some (fs.map (fun p => .str p.1))
  | _ => none

/-- External library primitives the scripts call but whose internals are out
of scope (pandas date handling, Python `str()` rendering).  The scripts use
them as opaque total functions; all theorems hold for any instantiation. -/
structure PyEnv where
  /-- Models `pd.to_datetime(v, errors="coerce")`. -/
  to_datetime : JVal → JVal
  /-- Models `pd.to_datetime(v).to_period("M").to_timestamp()` (month start). -/
  toMonthStart : JVal → JVal
  /-- Models `ts.strftime("%Y-%m")`. -/
  formatMonth : JVal → String
  /-- Python `str(v)`. -/
  pyStr : JVal → String

/-- A trivial `PyEnv`, used to build concrete witnesses. -/
def idEnv : PyEnv :=
  { to_datetime := fun v => v
    toMonthStart := fun v => v
    formatMonth := fun _ => "1970-01"
    pyStr := fun _ => "" }

/-- Models `ExcelFormatterFixed._safe_join_csv` (`OS_Costs_Daily_Duplicadas.py`
lines 300-303): `",".join(str(x) for x in v)` for lists, `""` otherwise. -/
def safe_join_csv (env : PyEnv) (v : JVal) : JVal :=
  match v with
  | .arr xs => .str (String.intercalate "," (xs.map env.pyStr))
  | _ => .str ""

/-! ## Paginated fetcher (C1, C6)

`OpenShiftCostAPIClient.get_costs_by_groupby`
(`OS_Costs_Daily_Duplicadas.py` lines 129-167, identical in
`OS_Costs_Daily.py` lines 129-166): a `while True` loop issuing GETs at
`offset = 0, limit, 2*limit, ...`, breaking on an empty `data` page or when
`meta.count <= offset + limit` after accumulating the page. -/

/-- The part of one HTTP response the loop looks at:
`payload.get("data", [])` and `payload.get("meta", {}).get("count", 0)`. -/
structure Page where
  data : List JVal
  count : Nat

/-- One run of the pagination `while True` loop.  `api off` is the response
for the GET at `filter[offset] = off` (`none` models the request raising
after the transport-level retries are exhausted; the surrounding `try` in
`get_costs_by_groupby` then discards the dimension).  Since the Python loop
is unbounded, the embedding carries `fuel`; `none` also models a run that
does not finish within `fuel` iterations.  `all_items` and `page` are the
loop variables of the source; each iteration issues exactly one GET, so the
returned `page` counter equals the number of GET requests issued. -/
def paginate (api : Nat → Option Page) (limit : Nat) :
    Nat → Nat → List JVal → Nat → Option (List JVal × Nat)
  | 0, _, _, _ => none
  | fuel + 1, offset, all_items, page =>
    match api offset with
    | none => none
    | some pg =>
      if pg.data.isEmpty then some (all_items, page)
      else
        if pg.count ≤ offset + limit then some (all_items ++ pg.data, page)
        else paginate api limit fuel (offset + limit) (all_items ++ pg.data) (page + 1)

/-- The concatenation, in request order, of the `data` arrays of the `r`
pages at offsets `offset, offset + limit, ...`. -/
def pagesConcat (api : Nat → Option Page) (limit : Nat) : Nat → Nat → List JVal
  | _, 0 => []
  | offset, r + 1 =>
    (match api offset with
     | some pg => pg.data
     | none => []) ++ pagesConcat api limit (offset + limit) r

lemma paginate_spec (api : Nat → Option Page) (N limit : Nat) (hl : 0 < limit)
    (hresp : ∀ off, ∃ pg, api off = some pg ∧ pg.count = N ∧ (off < N → pg.data ≠ [])) :
    ∀ fuel offset all_items page, offset < N → N ≤ offset + fuel * limit →
      paginate api limit fuel offset all_items page =
        some (all_items ++ pagesConcat api limit offset ((N - offset + limit - 1) / limit),
              page + ((N - offset + limit - 1) / limit) - 1) := by
  intro fuel
  induction fuel with
  | zero => intro offset all_items page hoff hfuel; omega
  | succ fuel ih =>
    intro offset all_items page hoff hfuel
    obtain ⟨pg, hpg, hcnt, hne⟩ := hresp offset
    have hdata : pg.data.isEmpty = false := by
      cases hd : pg.data with
      | nil => exact absurd hd (hne hoff)
      | cons a l => simp [hd]
    by_cases hstop : N ≤ offset + limit
    · have hr : (N - offset + limit - 1) / limit = 1 := by
        apply Nat.div_eq_of_lt_le <;> omega
      rw [paginate, hpg]
      simp only [hdata, Bool.false_eq_true, if_false, hcnt, hstop, if_true, hr]
      rw [pagesConcat, pagesConcat, hpg]
      simp
    · have hsplit : N - offset + limit - 1 = (N - (offset + limit) + limit - 1) + limit := by
        omega
      have hr : (N - offset + limit - 1) / limit =
          (N - (offset + limit) + limit - 1) / limit + 1 := by
        rw [hsplit, Nat.add_div_right _ hl]
      rw [paginate, hpg]
      simp only [hdata, Bool.false_eq_true, if_false, hcnt, hstop, if_false]
      rw [ih (offset + limit) (all_items ++ pg.data) (page + 1) (by omega) (by
        have := hfuel; rw [Nat.succ_mul] at this; omega)]
      rw [hr]
      have hpc : pagesConcat api limit offset ((N - (offset + limit) + limit - 1) / limit + 1) =
          pg.data ++ pagesConcat api limit (offset + limit) ((N - (offset + limit) + limit - 1) / limit) := by
        rw [pagesConcat, hpg]
      rw [hpc]
      simp only [List.append_assoc]
      generalize (N - (offset + limit) + limit - 1) / limit = q
      have hpage : page + 1 + q - 1 = page + (q + 1) - 1 := by omega
      rw [hpage]

/-- C1.  Under the claim's hypotheses — every response reports the same
`meta.count = N` and every page requested at an offset below `N` has
non-empty `data` — the `get_costs_by_groupby` pagination loop (run with page
size `P` and any fuel ≥ the page count, here `N`) terminates, returns the
pages' items concatenated in request order, and its `page` counter — the
number of GET requests issued — equals `(N + P - 1) / P = ⌈N / P⌉`. -/
theorem get_costs_pagination_ceil (api : Nat → Option Page) (N P : Nat)
    (hP : 0 < P) (hN : 0 < N)
    (hresp : ∀ off, ∃ pg, api off = some pg ∧ pg.count = N ∧ (off < N → pg.data ≠ [])) :
    paginate api P N 0 [] 1 =
      some (pagesConcat api P 0 ((N + P - 1) / P), (N + P - 1) / P) := by
  have h := paginate_spec api N P hP hresp N 0 [] 1 hN
    (by have := Nat.le_mul_of_pos_right N hP; omega)
  simpa using h

/-- A deterministic mock API: every page reports `count = 5` and carries two
items; with page size `2` the loop must issue `⌈5/2⌉ = 3` requests. -/
def mockApi : Nat → Option Page :=
  fun _ => some { data := [.num 1, .num 2], count := 5 }

/-- Witness for C1 at `N = 5`, `P = 2`: exactly 3 GET requests. -/
theorem get_costs_pagination_ceil_witness :
    paginate mockApi 2 5 0 [] 1 = some (pagesConcat mockApi 2 0 3, 3) :=
  get_costs_pagination_ceil mockApi 5 2 (by decide) (by decide)
    (fun _ => ⟨{ data := [.num 1, .num 2], count := 5 }, rfl, rfl, fun _ => by simp⟩)

/-! ## Nested flattener (C2, C10)

`ExcelFormatterFixed._flatten_values_record`
(`OS_Costs_Daily_Duplicadas.py` lines 305-370).  A flattened row is the
Python dict in insertion order, modelled as an association list. -/

/-- A flattened output row: dotted column names to values, in dict
insertion order. -/
abbrev Row := List (String × JVal)

/-- Dotted column name `values.<group>.<sub>.value`. -/
def valueCol (gname s : String) : String :=
  "values." ++ gname ++ "." ++ s ++ ".value"

/-- Dotted column name `values.<group>.<sub>.units`. -/
def unitsCol (gname s : String) : String :=
  "values." ++ gname ++ "." ++ s ++ ".units"

/-- The two row entries for one metric sub-bucket `s` of a metric group:
`(group.get(s, {}) or {}).get("value", 0) or 0` and
`(group.get(s, {}) or {}).get("units", currency) or currency`
(`_flatten_values_record`, e.g. lines 328-329).  `group` is the value of
`values_record.get(g, {}) or {}`; `.get` on a truthy non-dict raises
(`none`). -/
def subPair (gname currency : String) (group : JVal) (s : String) :
    Option (List (String × JVal)) :=
  match group with
  | .obj gfs =>
    match pyOr (objGetD gfs s (.obj [])) (.obj []) with
    | .obj bfs =>
      some [(valueCol gname s, pyOr (objGetD bfs "value" (.num 0)) (.num 0)),
            (unitsCol gname s, pyOr (objGetD bfs "units" (.str currency)) (.str currency))]
    | _ => none
  | _ => none

/-- The value/units row entries of the listed sub-buckets of one metric
group, in source order (the source writes the repeated per-sub-bucket
assignments out literally; this folds the identical pattern over the
sub-bucket list). -/
def collectSubs (gname currency : String) (group : JVal) :
    List String → Option (List (String × JVal))
  | [] => some []
  | s :: rest =>
    match subPair gname currency group s, collectSubs gname currency group rest with
    | some pr, some prs => some (pr ++ prs)
    | _, _ => none

/-- Models `values_record.get(gname, {}) or {}` (lines 327/337/347). -/
def groupOf (fs : List (String × JVal)) (gname : String) : JVal :=
  pyOr (objGetD fs gname (.obj [])) (.obj [])

/-- All row entries of one metric group of the snapshot. -/
def groupCols (gname currency : String) (fs : List (String × JVal))
    (subs : List String) : Option (List (String × JVal)) :=
  collectSubs gname currency (groupOf fs gname) subs

/-- Sub-buckets emitted for `infrastructure` (lines 328-335). -/
def infraSubs : List String := ["raw", "markup", "usage", "total"]

/-- Sub-buckets emitted for `supplementary` (lines 338-345). -/
def suppSubs : List String := ["raw", "markup", "usage", "total"]

/-- Sub-buckets emitted for `cost`, in source order (lines 348-363). -/
def costSubs : List String :=
  ["raw", "markup", "usage", "platform_distributed",
   "worker_unallocated_distributed", "distributed", "total"]

/-- Models `override if override is not None else (values_record.get(field, 0) or 0)`
(lines 366/368).  `fieldVal` is `values_record.get(field, 0)`. -/
def resolveDelta (fieldVal override : JVal) : JVal :=
  match override with
  | .null => pyOr fieldVal (.num 0)
  | v => v

/-- The leading row entries (lines 315-325). -/
def headerRow (env : PyEnv) (currency group_by_code : String)
    (name date : JVal) (fs : List (String × JVal)) : Row :=
  [("code", .str currency),
   ("Group By Code", .str group_by_code),
   ("meta.distributed_overhead", .bool true),
   ("date", env.to_datetime date),
   ("Name", name),
   ("values.date", env.to_datetime (objGetD fs "date" date)),
   ("values.classification", objGetD fs "classification" (.str "")),
   ("values.source_uuid", safe_join_csv env (objGetD fs "source_uuid" .null)),
   ("values.clusters", safe_join_csv env (objGetD fs "clusters" .null))]

/-- The trailing row entries (lines 366-368): `values.delta_percent`,
`key`, `values.delta_value`, in that order. -/
def tailRow (fs : List (String × JVal)) (tag_key dvo dpo : JVal) : Row :=
  [("values.delta_percent", resolveDelta (objGetD fs "delta_percent" (.num 0)) dpo),
   ("key", tag_key),
   ("values.delta_value", resolveDelta (objGetD fs "delta_value" (.num 0)) dvo)]

/-- Models `ExcelFormatterFixed._flatten_values_record` (lines 305-370).
`tag_key`, `delta_value_override` and `delta_percent_override` default to
Python `None` (`JVal.null`) at the call sites that omit them.  `none`
models the `AttributeError` Python raises when `values_record` or a truthy
metric-group/sub-bucket value is not a dict. -/
def flatten_values_record (env : PyEnv) (currency : String) (values_record : JVal)
    (group_by_code : String) (name date tag_key dvo dpo : JVal) : Option Row :=
  match values_record with
  | .obj fs =>
    match groupCols "infrastructure" currency fs infraSubs,
          groupCols "supplementary" currency fs suppSubs,
          groupCols "cost" currency fs costSubs with
    | some infra, some supp, some cost =>
      some (headerRow env currency group_by_code name date fs
            ++ infra ++ supp ++ cost ++ tailRow fs tag_key dvo dpo)
    | _, _, _ => none
  | _ => none

/-- The metric (group, sub-bucket) pairs whose `.value`/`.units` columns the
flattener emits. -/
def metricColumns : List (String × String) :=
  infraSubs.map (fun s => ("infrastructure", s))
    ++ suppSubs.map (fun s => ("supplementary", s))
    ++ costSubs.map (fun s => ("cost", s))

/-- Specification-side accessor for the raw JSON under `group[s][f]`
with `group` already resolved by `groupOf`, following exactly the access
path of the code (`(group.get(s, {}) or {}).get(f)`), with default `null`
so that an absent field and an explicit `null` coincide. -/
def rawFieldIn (group : JVal) (s f : String) : Option JVal :=
  match group with
  | .obj gfs =>
    match pyOr (objGetD gfs s (.obj [])) (.obj []) with
    | .obj bfs => some (objGetD bfs f .null)
    | _ => none
  | _ => none

/-- Reads `snapshot[g][s][f]` through the code's own access path. -/
def rawField (fs : List (String × JVal)) (g s f : String) : Option JVal :=
  rawFieldIn (groupOf fs g) s f

lemma getD_coalesce_num (bfs : List (String × JVal)) (f : String)
    (h : objGetD bfs f .null = .null) :
    pyOr (objGetD bfs f (.num 0)) (.num 0) = .num 0 := by
  unfold objGetD at h ⊢
  cases hl : List.lookup f bfs with
  | none => simp [pyOr, truthy]
  | some w => rw [hl] at h; simp at h; simp [h, pyOr, truthy]

lemma getD_pass_num (bfs : List (String × JVal)) (f : String) (q : ℚ)
    (h : objGetD bfs f .null = .num q) :
    pyOr (objGetD bfs f (.num 0)) (.num 0) = .num q := by
  unfold objGetD at h ⊢
  cases hl : List.lookup f bfs with
  | none => rw [hl] at h; simp at h
  | some w =>
    rw [hl] at h; simp at h
    by_cases hq : q = 0 <;> simp [h, pyOr, truthy, hq]

lemma getD_coalesce_str (bfs : List (String × JVal)) (f c : String)
    (h : objGetD bfs f .null = .null) :
    pyOr (objGetD bfs f (.str c)) (.str c) = .str c := by
  unfold objGetD at h ⊢
  cases hl : List.lookup f bfs with
  | none => simp [pyOr, truthy]
  | some w => rw [hl] at h; simp at h; simp [h, pyOr, truthy]

lemma subPair_spec (gname currency s : String) (group : JVal)
    (pr : List (String × JVal))
    (h : subPair gname currency group s = some pr) :
    ∃ v u, pr = [(valueCol gname s, v), (unitsCol gname s, u)] ∧
      (rawFieldIn group s "value" = some .null → v = .num 0) ∧
      (∀ q : ℚ, rawFieldIn group s "value" = some (.num q) → v = .num q) ∧
      (rawFieldIn group s "units" = some .null → u = .str currency) := by
  unfold subPair at h
  split at h
  next gfs =>
    split at h
    next bfs heq =>
      refine ⟨_, _, (Option.some_inj.mp h).symm, ?_, ?_, ?_⟩ <;>
        simp only [rawFieldIn, heq, Option.some_inj]
      · exact getD_coalesce_num bfs "value"
      · exact fun q hq => getD_pass_num bfs "value" q hq
      · exact getD_coalesce_str bfs "units" currency
    next hne heq => exact absurd h (by simp)
  next hne => exact absurd h (by simp)

lemma none_or_eq (x : Option JVal) : Option.or none x = x := rfl

lemma some_or_eq (a : JVal) (x : Option JVal) : (some a).or x = some a := rfl

lemma lookup_append (l₁ l₂ : List (String × JVal)) (k : String) :
    (l₁ ++ l₂).lookup k = (l₁.lookup k).or (l₂.lookup k) := by
  induction l₁ with
  | nil => simp [List.lookup]
  | cons p t ih =>
    obtain ⟨a, b⟩ := p
    by_cases hp : (k == a) = true <;> simp [List.lookup, hp, ih]

lemma collectSubs_lookup_none (gname currency : String) (group : JVal) :
    ∀ (subs : List String) (cols : List (String × JVal)) (k : String),
      collectSubs gname currency group subs = some cols →
      (∀ t ∈ subs, valueCol gname t ≠ k ∧ unitsCol gname t ≠ k) →
      cols.lookup k = none := by
  intro subs
  induction subs with
  | nil =>
    intro cols k h _
    simp only [collectSubs, Option.some_inj] at h
    simp [← h, List.lookup]
  | cons t rest ih =>
    intro cols k h hk
    simp only [collectSubs] at h
    split at h
    next pr prs hpr hprs =>
      obtain ⟨v, u, hsh, _, _, _⟩ := subPair_spec gname currency t group pr hpr
      subst hsh
      obtain ⟨hk1, hk2⟩ := hk t (by simp)
      have hb1 : (k == valueCol gname t) = false := by
        simp only [beq_eq_false_iff_ne]; exact fun hc => hk1 hc.symm
      have hb2 : (k == unitsCol gname t) = false := by
        simp only [beq_eq_false_iff_ne]; exact fun hc => hk2 hc.symm
      rw [← Option.some_inj.mp h, lookup_append]
      have := ih prs k hprs (fun t' ht' => hk t' (by simp [ht']))
      simp [List.lookup, hb1, hb2, this]
    next => exact absurd h (by simp)

lemma collectSubs_lookup_mem (gname currency : String) (group : JVal) :
    ∀ (subs : List String) (cols : List (String × JVal)) (s : String),
      collectSubs gname currency group subs = some cols →
      s ∈ subs →
      valueCol gname s ≠ unitsCol gname s →
      (∀ t ∈ subs, t ≠ s →
        valueCol gname t ≠ valueCol gname s ∧ unitsCol gname t ≠ valueCol gname s ∧
        valueCol gname t ≠ unitsCol gname s ∧ unitsCol gname t ≠ unitsCol gname s) →
      ∃ v u, cols.lookup (valueCol gname s) = some v ∧
        cols.lookup (unitsCol gname s) = some u ∧
        (rawFieldIn group s "value" = some .null → v = .num 0) ∧
        (∀ q : ℚ, rawFieldIn group s "value" = some (.num q) → v = .num q) ∧
        (rawFieldIn group s "units" = some .null → u = .str currency) := by
  intro subs
  induction subs with
  | nil => intro cols s _ hs; exact absurd hs (by simp)
  | cons t rest ih =>
    intro cols s h hs hvu hfr
    simp only [collectSubs] at h
    split at h
    next pr prs hpr hprs =>
      rw [← Option.some_inj.mp h, lookup_append, lookup_append]
      by_cases hts : t = s
      · subst hts
        obtain ⟨v, u, hsh, hv0, hvq, hu0⟩ := subPair_spec gname currency t group pr hpr
        subst hsh
        refine ⟨v, u, ?_, ?_, hv0, hvq, hu0⟩
        · simp [List.lookup]
        · have hb : (unitsCol gname t == valueCol gname t) = false := by
            simp only [beq_eq_false_iff_ne]; exact fun hc => hvu hc.symm
          simp [List.lookup, hb]
      · have hsrest : s ∈ rest := by
          rcases List.mem_cons.mp hs with h' | h'
          · exact absurd h'.symm hts
          · exact h'
        obtain ⟨v, u, hclv, hclu, hv0, hvq, hu0⟩ :=
          ih prs s hprs hsrest hvu (fun t' ht' => hfr t' (by simp [ht']))
        obtain ⟨v', u', hsh, _, _, _⟩ := subPair_spec gname currency t group pr hpr
        subst hsh
        obtain ⟨hd1, hd2, hd3, hd4⟩ := hfr t (by simp) hts
        have hb1 : (valueCol gname s == valueCol gname t) = false := by
          simp only [beq_eq_false_iff_ne]; exact fun hc => hd1 hc.symm
        have hb2 : (valueCol gname s == unitsCol gname t) = false := by
          simp only [beq_eq_false_iff_ne]; exact fun hc => hd2 hc.symm
        have hb3 : (unitsCol gname s == valueCol gname t) = false := by
          simp only [beq_eq_false_iff_ne]; exact fun hc => hd3 hc.symm
        have hb4 : (unitsCol gname s == unitsCol gname t) = false := by
          simp only [beq_eq_false_iff_ne]; exact fun hc => hd4 hc.symm
        exact ⟨v, u, by simp [List.lookup, hb1, hb2, hclv],
          by simp [List.lookup, hb3, hb4, hclu], hv0, hvq, hu0⟩
    next => exact absurd h (by simp)

lemma flatten_shape (env : PyEnv) (currency : String) (fs : List (String × JVal))
    (gbc : String) (name date tk dvo dpo : JVal) (row : Row)
    (h : flatten_values_record env currency (.obj fs) gbc name date tk dvo dpo = some row) :
    ∃ infra supp cost,
      groupCols "infrastructure" currency fs infraSubs = some infra ∧
      groupCols "supplementary" currency fs suppSubs = some supp ∧
      groupCols "cost" currency fs costSubs = some cost ∧
      row = headerRow env currency gbc name date fs
            ++ infra ++ supp ++ cost ++ tailRow fs tk dvo dpo := by
  simp only [flatten_values_record] at h
  split at h
  next infra supp cost h1 h2 h3 =>
    exact ⟨infra, supp, cost, h1, h2, h3, (Option.some_inj.mp h).symm⟩
  all_goals exact absurd h (by simp)

lemma daily_lookup_infra (env : PyEnv) (currency : String) (fs : List (String × JVal))
    (gbc : String) (name date tk dvo dpo : JVal)
    (infra supp cost : List (String × JVal)) (s : String) (hs : s ∈ infraSubs)
    (h1 : groupCols "infrastructure" currency fs infraSubs = some infra) :
    ∃ v u,
      (headerRow env currency gbc name date fs ++ infra ++ supp ++ cost
        ++ tailRow fs tk dvo dpo).lookup (valueCol "infrastructure" s) = some v ∧
      (headerRow env currency gbc name date fs ++ infra ++ supp ++ cost
        ++ tailRow fs tk dvo dpo).lookup (unitsCol "infrastructure" s) = some u ∧
      (rawField fs "infrastructure" s "value" = some .null → v = .num 0) ∧
      (∀ q : ℚ, rawField fs "infrastructure" s "value" = some (.num q) → v = .num q) ∧
      (rawField fs "infrastructure" s "units" = some .null → u = .str currency) := by
  unfold groupCols at h1
  have hsv : s = "raw" ∨ s = "markup" ∨ s = "usage" ∨ s = "total" := by
    simpa [infraSubs] using hs
  rcases hsv with hsv | hsv | hsv | hsv
  all_goals
    obtain ⟨v, u, hclv, hclu, hv0, hvq, hu0⟩ :=
      collectSubs_lookup_mem "infrastructure" currency (groupOf fs "infrastructure")
        infraSubs infra s h1 hs (by subst hsv; decide) (by subst hsv; decide)
  all_goals
    refine ⟨v, u, ?_, ?_, hv0, hvq, hu0⟩ <;>
      · have hhv : (headerRow env currency gbc name date fs).lookup
            (valueCol "infrastructure" s) = none := by subst hsv; rfl
        have hhu : (headerRow env currency gbc name date fs).lookup
            (unitsCol "infrastructure" s) = none := by subst hsv; rfl
        simp only [lookup_append, hhv, hhu, hclv, hclu, none_or_eq, some_or_eq]

lemma daily_lookup_supp (env : PyEnv) (currency : String) (fs : List (String × JVal))
    (gbc : String) (name date tk dvo dpo : JVal)
    (infra supp cost : List (String × JVal)) (s : String) (hs : s ∈ suppSubs)
    (h1 : groupCols "infrastructure" currency fs infraSubs = some infra)
    (h2 : groupCols "supplementary" currency fs suppSubs = some supp) :
    ∃ v u,
      (headerRow env currency gbc name date fs ++ infra ++ supp ++ cost
        ++ tailRow fs tk dvo dpo).lookup (valueCol "supplementary" s) = some v ∧
      (headerRow env currency gbc name date fs ++ infra ++ supp ++ cost
        ++ tailRow fs tk dvo dpo).lookup (unitsCol "supplementary" s) = some u ∧
      (rawField fs "supplementary" s "value" = some .null → v = .num 0) ∧
      (∀ q : ℚ, rawField fs "supplementary" s "value" = some (.num q) → v = .num q) ∧
      (rawField fs "supplementary" s "units" = some .null → u = .str currency) := by
  unfold groupCols at h1 h2
  have hsv : s = "raw" ∨ s = "markup" ∨ s = "usage" ∨ s = "total" := by
    simpa [suppSubs] using hs
  rcases hsv with hsv | hsv | hsv | hsv
  all_goals
    obtain ⟨v, u, hclv, hclu, hv0, hvq, hu0⟩ :=
      collectSubs_lookup_mem "supplementary" currency (groupOf fs "supplementary")
        suppSubs supp s h2 hs (by subst hsv; decide) (by subst hsv; decide)
  all_goals
    refine ⟨v, u, ?_, ?_, hv0, hvq, hu0⟩ <;>
      · have hhv : (headerRow env currency gbc name date fs).lookup
            (valueCol "supplementary" s) = none := by subst hsv; rfl
        have hhu : (headerRow env currency gbc name date fs).lookup
            (unitsCol "supplementary" s) = none := by subst hsv; rfl
        have hskv := collectSubs_lookup_none "infrastructure" currency
          (groupOf fs "infrastructure") infraSubs infra (valueCol "supplementary" s) h1
          (by subst hsv; decide)
        have hsku := collectSubs_lookup_none "infrastructure" currency
          (groupOf fs "infrastructure") infraSubs infra (unitsCol "supplementary" s) h1
          (by subst hsv; decide)
        simp only [lookup_append, hhv, hhu, hskv, hsku, hclv, hclu,
          none_or_eq, some_or_eq]

lemma daily_lookup_cost (env : PyEnv) (currency : String) (fs : List (String × JVal))
    (gbc : String) (name date tk dvo dpo : JVal)
    (infra supp cost : List (String × JVal)) (s : String) (hs : s ∈ costSubs)
    (h1 : groupCols "infrastructure" currency fs infraSubs = some infra)
    (h2 : groupCols "supplementary" currency fs suppSubs = some supp)
    (h3 : groupCols "cost" currency fs costSubs = some cost) :
    ∃ v u,
      (headerRow env currency gbc name date fs ++ infra ++ supp ++ cost
        ++ tailRow fs tk dvo dpo).lookup (valueCol "cost" s) = some v ∧
      (headerRow env currency gbc name date fs ++ infra ++ supp ++ cost
        ++ tailRow fs tk dvo dpo).lookup (unitsCol "cost" s) = some u ∧
      (rawField fs "cost" s "value" = some .null → v = .num 0) ∧
      (∀ q : ℚ, rawField fs "cost" s "value" = some (.num q) → v = .num q) ∧
      (rawField fs "cost" s "units" = some .null → u = .str currency) := by
  unfold groupCols at h1 h2 h3
  have hsv : s = "raw" ∨ s = "markup" ∨ s = "usage" ∨ s = "platform_distributed" ∨
      s = "worker_unallocated_distributed" ∨ s = "distributed" ∨ s = "total" := by
    simpa [costSubs] using hs
  rcases hsv with hsv | hsv | hsv | hsv | hsv | hsv | hsv
  all_goals
    obtain ⟨v, u, hclv, hclu, hv0, hvq, hu0⟩ :=
      collectSubs_lookup_mem "cost" currency (groupOf fs "cost")
        costSubs cost s h3 hs (by subst hsv; decide) (by subst hsv; decide)
  all_goals
    refine ⟨v, u, ?_, ?_, hv0, hvq, hu0⟩ <;>
      · have hhv : (headerRow env currency gbc name date fs).lookup
            (valueCol "cost" s) = none := by subst hsv; rfl
        have hhu : (headerRow env currency gbc name date fs).lookup
            (unitsCol "cost" s) = none := by subst hsv; rfl
        have hsk1v := collectSubs_lookup_none "infrastructure" currency
          (groupOf fs "infrastructure") infraSubs infra (valueCol "cost" s) h1
          (by subst hsv; decide)
        have hsk1u := collectSubs_lookup_none "infrastructure" currency
          (groupOf fs "infrastructure") infraSubs infra (unitsCol "cost" s) h1
          (by subst hsv; decide)
        have hsk2v := collectSubs_lookup_none "supplementary" currency
          (groupOf fs "supplementary") suppSubs supp (valueCol "cost" s) h2
          (by subst hsv; decide)
        have hsk2u := collectSubs_lookup_none "supplementary" currency
          (groupOf fs "supplementary") suppSubs supp (unitsCol "cost" s) h2
          (by subst hsv; decide)
        simp only [lookup_append, hhv, hhu, hsk1v, hsk1u, hsk2v, hsk2u, hclv, hclu,
          none_or_eq, some_or_eq]

/-- C2.  For every metric snapshot that `_flatten_values_record` flattens
successfully and every emitted cost-metric sub-bucket column (the
infrastructure/supplementary/cost groups crossed with their
raw/markup/usage/total/platform_distributed/worker_unallocated_distributed/
distributed sub-buckets, as enumerated by `metricColumns`): the row's
`.value` column is `0` (never null) when the sub-bucket or its `value`
field is absent or null, the source number passes through unchanged when
present (an explicit `0` stays `0`), and the `.units` column is the run's
configured currency whenever the `units` field is absent or null. -/
theorem flatten_metric_coalescing
    (env : PyEnv) (currency : String) (fs : List (String × JVal))
    (gbc : String) (name date tk dvo dpo : JVal) (row : Row)
    (hrow : flatten_values_record env currency (.obj fs) gbc name date tk dvo dpo = some row)
    (g s : String) (hmem : (g, s) ∈ metricColumns) :
    (rawField fs g s "value" = some .null → row.lookup (valueCol g s) = some (.num 0)) ∧
    (∀ q : ℚ, rawField fs g s "value" = some (.num q) →
      row.lookup (valueCol g s) = some (.num q)) ∧
    (rawField fs g s "units" = some .null → row.lookup (unitsCol g s) = some (.str currency)) := by
  obtain ⟨infra, supp, cost, h1, h2, h3, hrw⟩ :=
    flatten_shape env currency fs gbc name date tk dvo dpo row hrow
  subst hrw
  simp only [metricColumns, List.mem_append, List.mem_map] at hmem
  rcases hmem with (⟨s', hs', hpair⟩ | ⟨s', hs', hpair⟩) | ⟨s', hs', hpair⟩ <;>
    obtain ⟨hg, hsv⟩ := Prod.mk.injEq .. ▸ hpair <;> subst hg <;> subst hsv
  · obtain ⟨v, u, hlv, hlu, hv0, hvq, hu0⟩ :=
      daily_lookup_infra env currency fs gbc name date tk dvo dpo infra supp cost s' hs' h1
    refine ⟨fun h => ?_, fun q h => ?_, fun h => ?_⟩
    · rw [hlv, hv0 h]
    · rw [hlv, hvq q h]
    · rw [hlu, hu0 h]
  · obtain ⟨v, u, hlv, hlu, hv0, hvq, hu0⟩ :=
      daily_lookup_supp env currency fs gbc name date tk dvo dpo infra supp cost s' hs' h1 h2
    refine ⟨fun h => ?_, fun q h => ?_, fun h => ?_⟩
    · rw [hlv, hv0 h]
    · rw [hlv, hvq q h]
    · rw [hlu, hu0 h]
  · obtain ⟨v, u, hlv, hlu, hv0, hvq, hu0⟩ :=
      daily_lookup_cost env currency fs gbc name date tk dvo dpo infra supp cost s' hs' h1 h2 h3
    refine ⟨fun h => ?_, fun q h => ?_, fun h => ?_⟩
    · rw [hlv, hv0 h]
    · rw [hlv, hvq q h]
    · rw [hlu, hu0 h]

/-- Witness for C2: flattening the empty snapshot (every group absent)
puts `0` in the `values.infrastructure.raw.value` column. -/
theorem flatten_metric_coalescing_witness :
    List.lookup (valueCol "infrastructure" "raw")
      ((flatten_values_record idEnv "BRL" (.obj []) "cluster" (.str "c")
        (.str "2024-01-01") .null .null .null).getD []) = some (.num 0) := by
  have h := (flatten_metric_coalescing idEnv "BRL" [] "cluster" (.str "c")
    (.str "2024-01-01") .null .null .null _ rfl "infrastructure" "raw" (by decide)).1 rfl
  exact h

lemma resolveDelta_self (x : JVal) (hx : x = .null ∨ ∃ q : ℚ, x = .num q) :
    resolveDelta x x = resolveDelta x .null := by
  rcases hx with h | ⟨q, h⟩ <;> subst h
  · rfl
  · by_cases hq : q = 0 <;> simp [resolveDelta, pyOr, truthy, hq]

/-- C10.  For every metric snapshot whose `delta_value` / `delta_percent`
fields are numbers or null if present (the shape the data model gives
them), flattening with the overrides the project/tag call sites pass
(`values_record.get("delta_value", 0)`, `values_record.get("delta_percent", 0)`)
produces exactly the same row as flattening with no overrides (the
cluster/node call sites): the per-dimension delta-override asymmetry has no
observable effect on the flattened output. -/
theorem delta_override_noop (env : PyEnv) (currency : String)
    (fs : List (String × JVal)) (gbc : String) (name date tk : JVal)
    (hdv : objGetD fs "delta_value" (.num 0) = .null ∨
      ∃ q : ℚ, objGetD fs "delta_value" (.num 0) = .num q)
    (hdp : objGetD fs "delta_percent" (.num 0) = .null ∨
      ∃ q : ℚ, objGetD fs "delta_percent" (.num 0) = .num q) :
    flatten_values_record env currency (.obj fs) gbc name date tk
        (objGetD fs "delta_value" (.num 0)) (objGetD fs "delta_percent" (.num 0)) =
      flatten_values_record env currency (.obj fs) gbc name date tk .null .null := by
  have h1 : tailRow fs tk (objGetD fs "delta_value" (.num 0))
      (objGetD fs "delta_percent" (.num 0)) = tailRow fs tk .null .null := by
    unfold tailRow
    rw [resolveDelta_self _ hdv, resolveDelta_self _ hdp]
  simp only [flatten_values_record, h1]

/-- Witness for C10 at a snapshot carrying `delta_value = 7`. -/
theorem delta_override_noop_witness :
    flatten_values_record idEnv "BRL" (.obj [("delta_value", JVal.num 7)]) "project"
        (.str "p") (.str "2024-01-01") .null
        (objGetD [("delta_value", JVal.num 7)] "delta_value" (.num 0))
        (objGetD [("delta_value", JVal.num 7)] "delta_percent" (.num 0)) =
      flatten_values_record idEnv "BRL" (.obj [("delta_value", JVal.num 7)]) "project"
        (.str "p") (.str "2024-01-01") .null .null .null :=
  delta_override_noop idEnv "BRL" [("delta_value", JVal.num 7)] "project"
    (.str "p") (.str "2024-01-01") .null (Or.inr ⟨7, rfl⟩) (Or.inr ⟨0, rfl⟩)

/-! ## Group-by extractor result and the project↔tag report (C3, C4)

`ExcelFormatterFixed.create_os_cost_project_tags`
(`OS_Costs_Daily_Duplicadas.py` lines 402-485; the same function appears in
`cost_projects.py` lines 185-264). -/

/-- The `all_data` dict assembled by `get_costs_by_groupby`: one item list
per dimension (`setdefault` guarantees the four keys exist) plus the
optional `_tag_key_name` entry (set only when the tag fetch succeeded;
readers use `all_data.get("_tag_key_name", "produto")`). -/
structure AllData where
  cluster : List JVal
  node : List JVal
  project : List JVal
  tag : List JVal
  tag_key_name : Option String

/-- Sequential accumulation of per-element row lists, propagating the first
raised exception (`none`), as the Python `for` loops do. -/
def collectSome {α β : Type} (f : α → Option (List β)) : List α → Option (List β)
  | [] => some []
  | x :: xs =>
    match f x, collectSome f xs with
    | some r, some rest => some (r ++ rest)
    | _, _ => none

/-- One output row of the project↔tag report, in dict insertion order
(lines 442-450 / 463-471 / 475-483 — the three emission sites build the
same dict shape). -/
def mkTagRow (env : PyEnv) (currency : String) (month proj key vals enabled : JVal) : Row :=
  [("code", .str currency),
   ("date", month),
   ("project", proj),
   ("key", key),
   ("values", vals),
   ("enabled", enabled),
   ("Filter Month", .str (env.formatMonth month))]

/-- The `for tag in tag_data` body (lines 453-483): `key = tag.get("key")`,
`enabled = tag.get("enabled", None)`, `values = tag.get("values", [])`;
falsy `values` emits a single row with null `values`, otherwise one row per
value. -/
def tagRows (env : PyEnv) (currency : String) (month proj tag : JVal) :
    Option (List Row) :=
  match tag with
  | .obj tfs =>
    if truthy (objGetD tfs "values" (.arr [])) then
      (pyIter (objGetD tfs "values" (.arr []))).map (fun vs =>
        vs.map (fun v => mkTagRow env currency month proj
          (objGetD tfs "key" .null) v (objGetD tfs "enabled" .null)))
    else
      some [mkTagRow env currency month proj
        (objGetD tfs "key" .null) .null (objGetD tfs "enabled" .null)]
  | _ => none

/-- The per-`df_base`-row body (lines 434-483): fetch the project's tags;
an empty response emits exactly one all-null marker row, otherwise the tag
records are processed in order.  `client p sd ed` models
`client.get_project_tags_by_project(p, start_date, end_date)`; `none` is a
raised request exception. -/
def projectTagRows (env : PyEnv) (currency : String)
    (client : JVal → String → String → Option (List JVal))
    (start_date end_date : String) (proj month : JVal) : Option (List Row) :=
  match client proj start_date end_date with
  | none => none
  | some tag_data =>
    if tag_data.isEmpty then
      some [mkTagRow env currency month proj .null .null .null]
    else collectSome (tagRows env currency month proj) tag_data

/-- The `base_rows` contribution of one project-dimension item
(lines 413-424): items with falsy `date` are skipped; otherwise one
`(project, month_start)` pair per project entry. -/
def basePairsOfItem (env : PyEnv) (item : JVal) : Option (List (JVal × JVal)) :=
  match item with
  | .obj ifs =>
    if truthy (objGetD ifs "date" .null) then
      match pyIter (objGetD ifs "projects" (.arr [])) with
      | none => none
      | some projs =>
        collectSome (fun proj =>
          match proj with
          | .obj pfs =>
            some [(objGetD pfs "project" .null,
                   env.toMonthStart (objGetD ifs "date" .null))]
          | _ => none) projs
    else some []
  | _ => none

/-- Models `DataFrame.drop_duplicates` keeping the first occurrence. -/
def dropDupFirst (seen : List (JVal × JVal)) :
    List (JVal × JVal) → List (JVal × JVal)
  | [] => []
  | x :: xs =>
    if seen.contains x then dropDupFirst seen xs
    else x :: dropDupFirst (x :: seen) xs

/-- Models `DataFrame.dropna(subset=["project"])`: keep pairs whose project is not
null. -/
def notNullProject (p : JVal × JVal) : Bool :=
  match p.1 with
  | .null => false
  | _ => true

/-- Models `ExcelFormatterFixed.create_os_cost_project_tags` (lines 402-485),
returning the report's row list (`pd.DataFrame(rows)` is the external
writer).  Reads `all_data.get("project", [])`. -/
def create_os_cost_project_tags (env : PyEnv) (currency : String)
    (client : JVal → String → String → Option (List JVal))
    (start_date end_date : String) (all_data : AllData) : Option (List Row) :=
  match collectSome (basePairsOfItem env) all_data.project with
  | none => none
  | some base_rows =>
    collectSome
      (fun pr => projectTagRows env currency client start_date end_date pr.1 pr.2)
      (dropDupFirst [] (base_rows.filter notNullProject))

lemma mkTagRow_lookup_enabled (env : PyEnv) (currency : String)
    (month proj k v e : JVal) :
    (mkTagRow env currency month proj k v e).lookup "enabled" = some e := rfl

/-- C3.  Every row assembled from a tag record that has no `enabled` key
carries `enabled = null` (never a defaulted `true`). -/
theorem tag_enabled_propagates_null (env : PyEnv) (currency : String)
    (month proj : JVal) (tfs : List (String × JVal)) (rows : List Row)
    (hno : tfs.lookup "enabled" = none)
    (h : tagRows env currency month proj (.obj tfs) = some rows) :
    ∀ r ∈ rows, r.lookup "enabled" = some .null := by
  have he : objGetD tfs "enabled" .null = .null := by simp [objGetD, hno]
  simp only [tagRows, he] at h
  split at h
  · cases hmap : pyIter (objGetD tfs "values" (.arr [])) with
    | none => rw [hmap] at h; simp at h
    | some vs =>
      rw [hmap] at h
      intro r hr
      rw [← Option.some_inj.mp h] at hr
      obtain ⟨v, _, rfl⟩ := List.mem_map.mp hr
      exact mkTagRow_lookup_enabled env currency month proj _ v .null
  · intro r hr
    rw [← Option.some_inj.mp h] at hr
    have : r = mkTagRow env currency month proj (objGetD tfs "key" .null) .null .null := by
      simpa using hr
    rw [this]
    exact mkTagRow_lookup_enabled env currency month proj _ .null .null

/-- Witness for C3: a tag record `{key: "produto", values: ["infra"]}` with
no `enabled` key yields a row whose `enabled` column is null. -/
theorem tag_enabled_propagates_null_witness :
    List.lookup "enabled"
      (mkTagRow idEnv "BRL" (.str "2024-01-01") (.str "billing")
        (.str "produto") (.str "infra") .null) = some .null :=
  tag_enabled_propagates_null idEnv "BRL" (.str "2024-01-01") (.str "billing")
    [("key", .str "produto"), ("values", .arr [.str "infra"])] _ rfl rfl
    (mkTagRow idEnv "BRL" (.str "2024-01-01") (.str "billing")
      (.str "produto") (.str "infra") .null) (by exact List.Mem.head _)

/-- C4.  Project↔tag row emission: a project whose tag fetch returns zero
records yields exactly one row with `key`, `values`, `enabled` all null; a
tag record with an empty `values` list yields exactly one row with
`values = null` and `key` populated; a tag record with values yields one row
per value. -/
theorem project_tag_row_emission (env : PyEnv) (currency : String)
    (client : JVal → String → String → Option (List JVal))
    (start_date end_date : String) (proj month : JVal) (tfs : List (String × JVal)) :
    (client proj start_date end_date = some [] →
      projectTagRows env currency client start_date end_date proj month =
        some [mkTagRow env currency month proj .null .null .null]) ∧
    (objGetD tfs "values" (.arr []) = .arr [] →
      tagRows env currency month proj (.obj tfs) =
        some [mkTagRow env currency month proj (objGetD tfs "key" .null) .null
          (objGetD tfs "enabled" .null)]) ∧
    (∀ vs, objGetD tfs "values" (.arr []) = .arr vs → vs ≠ [] →
      tagRows env currency month proj (.obj tfs) =
        some (vs.map (fun v => mkTagRow env currency month proj
          (objGetD tfs "key" .null) v (objGetD tfs "enabled" .null)))) := by
  refine ⟨fun h => ?_, fun h => ?_, fun vs h hne => ?_⟩
  · simp [projectTagRows, h]
  · simp [tagRows, h, truthy]
  · have hie : vs.isEmpty = false := by
      cases vs with
      | nil => exact absurd rfl hne
      | cons a l => rfl
    simp [tagRows, h, truthy, hie, pyIter]

/-- Witness for C4: a project with zero tag records gets exactly the
all-null marker row; the empty-values and per-value cases at a concrete
record. -/
theorem project_tag_row_emission_witness :
    projectTagRows idEnv "BRL" (fun _ _ _ => some []) "2024-01-01" "2024-01-31"
        (.str "billing") (.str "2024-01-01") =
      some [mkTagRow idEnv "BRL" (.str "2024-01-01") (.str "billing") .null .null .null] :=
  (project_tag_row_emission idEnv "BRL" (fun _ _ _ => some []) "2024-01-01"
    "2024-01-31" (.str "billing") (.str "2024-01-01") []).1 rfl

/-! ## OS Costs Daily report (C5, C9)

`ExcelFormatterFixed.create_os_costs_daily`
(`OS_Costs_Daily_Duplicadas.py` lines 490-648). -/

/-- Rows from one snapshot at the project call site (lines 503-512):
`values_record.get("delta_value", 0)` / `("delta_percent", 0)` are passed as
overrides, requiring the snapshot to be a dict. -/
def projectSnapshotRows (env : PyEnv) (currency : String) (pname date vr : JVal) :
    Option (List Row) :=
  match vr with
  | .obj vfs =>
    (flatten_values_record env currency (.obj vfs) "project" pname date .null
      (objGetD vfs "delta_value" (.num 0)) (objGetD vfs "delta_percent" (.num 0))).map
      (fun r => [r])
  | _ => none

/-- Rows from one project entry (lines 500-512):
`proj_name = proj.get("project") or ""`, then one flattened row per entry of
`proj.get("values", []) or []`. -/
def projectEntryRows (env : PyEnv) (currency : String) (date proj : JVal) :
    Option (List Row) :=
  match proj with
  | .obj pfs =>
    match pyIter (pyOr (objGetD pfs "values" (.arr [])) (.arr [])) with
    | none => none
    | some vlist =>
      collectSome
        (projectSnapshotRows env currency (pyOr (objGetD pfs "project" .null) (.str "")) date)
        vlist
  | _ => none

/-- Rows from one project-dimension item (lines 496-512): skip items with a
falsy `date`, then iterate `item.get("projects", [])`. -/
def projectItemRows (env : PyEnv) (currency : String) (item : JVal) :
    Option (List Row) :=
  match item with
  | .obj ifs =>
    if truthy (objGetD ifs "date" .null) then
      match pyIter (objGetD ifs "projects" (.arr [])) with
      | none => none
      | some projs =>
        collectSome (projectEntryRows env currency (objGetD ifs "date" .null)) projs
    else some []
  | _ => none

/-- Rows from one cluster entry (lines 519-529): no delta overrides. -/
def clusterEntryRows (env : PyEnv) (currency : String) (date cluster : JVal) :
    Option (List Row) :=
  match cluster with
  | .obj cfs =>
    match pyIter (pyOr (objGetD cfs "values" (.arr [])) (.arr [])) with
    | none => none
    | some vlist =>
      collectSome
        (fun vr =>
          (flatten_values_record env currency vr "cluster"
            (pyOr (objGetD cfs "cluster" .null) (.str "")) date .null .null .null).map
            (fun r => [r]))
        vlist
  | _ => none

/-- Rows from one cluster-dimension item (lines 515-529). -/
def clusterItemRows (env : PyEnv) (currency : String) (item : JVal) :
    Option (List Row) :=
  match item with
  | .obj ifs =>
    if truthy (objGetD ifs "date" .null) then
      match pyIter (objGetD ifs "clusters" (.arr [])) with
      | none => none
      | some cls =>
        collectSome (clusterEntryRows env currency (objGetD ifs "date" .null)) cls
    else some []
  | _ => none

/-- Rows from one node entry (lines 537-547). -/
def nodeEntryRows (env : PyEnv) (currency : String) (date node : JVal) :
    Option (List Row) :=
  match node with
  | .obj nfs =>
    match pyIter (pyOr (objGetD nfs "values" (.arr [])) (.arr [])) with
    | none => none
    | some vlist =>
      collectSome
        (fun vr =>
          (flatten_values_record env currency vr "node"
            (pyOr (objGetD nfs "node" .null) (.str "")) date .null .null .null).map
            (fun r => [r]))
        vlist
  | _ => none

/-- Rows from one cluster of the node-dimension data (lines 536-547):
`cluster.get("nodes", []) or []`. -/
def nodeClusterRows (env : PyEnv) (currency : String) (date cluster : JVal) :
    Option (List Row) :=
  match cluster with
  | .obj cfs =>
    match pyIter (pyOr (objGetD cfs "nodes" (.arr [])) (.arr [])) with
    | none => none
    | some nodes => collectSome (nodeEntryRows env currency date) nodes
  | _ => none

/-- Rows from one node-dimension item (lines 532-547). -/
def nodeItemRows (env : PyEnv) (currency : String) (item : JVal) :
    Option (List Row) :=
  match item with
  | .obj ifs =>
    if truthy (objGetD ifs "date" .null) then
      match pyIter (objGetD ifs "clusters" (.arr [])) with
      | none => none
      | some cls =>
        collectSome (nodeClusterRows env currency (objGetD ifs "date" .null)) cls
    else some []
  | _ => none

/-- Rows from one tag entry (lines 568-587): the display name tries the
pluralized key, then `tag`/`value`/`key`, defaulting to `""`; delta
overrides are passed as at the project site; `tag_key` is the tag key
name string. -/
def tagEntryRows (env : PyEnv) (currency tkn : String) (date entry : JVal) :
    Option (List Row) :=
  match entry with
  | .obj efs =>
    match pyIter (pyOr (objGetD efs "values" (.arr [])) (.arr [])) with
    | none => none
    | some vlist =>
      collectSome
        (fun vr =>
          match vr with
          | .obj vfs =>
            (flatten_values_record env currency (.obj vfs) "tag"
              (pyOr (objGetD efs tkn .null)
                (pyOr (objGetD efs "tag" .null)
                  (pyOr (objGetD efs "value" .null)
                    (pyOr (objGetD efs "key" .null) (.str "")))))
              date (.str tkn)
              (objGetD vfs "delta_value" (.num 0))
              (objGetD vfs "delta_percent" (.num 0))).map (fun r => [r])
          | _ => none)
        vlist
  | _ => none

/-- Rows from one tag-dimension item (lines 551-587): the tag entries live
under the first of `item.get(f"{tag_key_name}s")` / `item.get("tags")` that
is a list; a missing or empty list skips the item. -/
def tagItemRows (env : PyEnv) (currency tkn : String) (item : JVal) :
    Option (List Row) :=
  match item with
  | .obj ifs =>
    if truthy (objGetD ifs "date" .null) then
      match (match objGetD ifs (tkn ++ "s") .null with
             | .arr xs => some xs
             | _ =>
               match objGetD ifs "tags" .null with
               | .arr ys => some ys
               | _ => none) with
      | none => some []
      | some ts =>
        if ts.isEmpty then some []
        else collectSome (tagEntryRows env currency tkn (objGetD ifs "date" .null)) ts
    else some []
  | _ => none

/-- A report table: its ordered column header plus one cell list per row,
aligned with the header. -/
structure Table where
  columns : List String
  cells : List (List JVal)

/-- The `ordered_cols` list (lines 597-640): the exact output column sequence. -/
def osCostsDailyCols : List String :=
  ["code", "Group By Code", "meta.distributed_overhead", "date", "Name",
   "values.date", "values.classification", "values.source_uuid", "values.clusters",
   "values.infrastructure.raw.value", "values.infrastructure.raw.units",
   "values.infrastructure.markup.value", "values.infrastructure.markup.units",
   "values.infrastructure.usage.value", "values.infrastructure.usage.units",
   "values.infrastructure.total.value", "values.infrastructure.total.units",
   "values.supplementary.raw.value", "values.supplementary.raw.units",
   "values.supplementary.markup.value", "values.supplementary.markup.units",
   "values.supplementary.usage.value", "values.supplementary.usage.units",
   "values.supplementary.total.value", "values.supplementary.total.units",
   "values.cost.raw.value", "values.cost.raw.units",
   "values.cost.markup.value", "values.cost.markup.units",
   "values.cost.usage.value", "values.cost.usage.units",
   "values.cost.platform_distributed.value", "values.cost.platform_distributed.units",
   "values.cost.worker_unallocated_distributed.value",
   "values.cost.worker_unallocated_distributed.units",
   "values.cost.distributed.value", "values.cost.distributed.units",
   "values.cost.total.value", "values.cost.total.units",
   "values.delta_percent", "key", "values.delta_value"]

/-- Lines 589-648: build the DataFrame from the rows, re-coerce the two date
columns (a no-op on the empty frame), add any missing ordered column as NA
(modelled as null) and select `ordered_cols` in order.  A cell is the row's
value for that column, NA when the row lacks it. -/
def toDailyTable (env : PyEnv) (rows : List Row) : Table :=
  { columns := osCostsDailyCols
    cells := rows.map (fun r =>
      osCostsDailyCols.map (fun c =>
        let v := (r.lookup c).getD .null
        if c == "date" || c == "values.date" then env.to_datetime v else v)) }

/-- Models `ExcelFormatterFixed.create_os_costs_daily` (lines 490-648): concatenate
the flattened rows of the four dimensions — projects, clusters, nodes, tags,
in source order — and shape them into the fixed-column table. -/
def create_os_costs_daily (env : PyEnv) (currency : String) (all_data : AllData) :
    Option Table :=
  match collectSome (projectItemRows env currency) all_data.project,
        collectSome (clusterItemRows env currency) all_data.cluster,
        collectSome (nodeItemRows env currency) all_data.node,
        collectSome (tagItemRows env currency (all_data.tag_key_name.getD "produto"))
          all_data.tag with
  | some prRows, some clRows, some ndRows, some tgRows =>
    some (toDailyTable env (prRows ++ clRows ++ ndRows ++ tgRows))
  | _, _, _, _ => none

/-- C5.  Whenever `create_os_costs_daily` produces a table, its column
header is exactly the fixed 42-column sequence of the spec, and when no
dimension yielded any data the table has zero rows while all column headers
are still present. -/
theorem os_costs_daily_columns (env : PyEnv) (currency : String)
    (all_data : AllData) (t : Table)
    (h : create_os_costs_daily env currency all_data = some t) :
    t.columns =
      ["code", "Group By Code", "meta.distributed_overhead", "date", "Name",
       "values.date", "values.classification", "values.source_uuid", "values.clusters",
       "values.infrastructure.raw.value", "values.infrastructure.raw.units",
       "values.infrastructure.markup.value", "values.infrastructure.markup.units",
       "values.infrastructure.usage.value", "values.infrastructure.usage.units",
       "values.infrastructure.total.value", "values.infrastructure.total.units",
       "values.supplementary.raw.value", "values.supplementary.raw.units",
       "values.supplementary.markup.value", "values.supplementary.markup.units",
       "values.supplementary.usage.value", "values.supplementary.usage.units",
       "values.supplementary.total.value", "values.supplementary.total.units",
       "values.cost.raw.value", "values.cost.raw.units",
       "values.cost.markup.value", "values.cost.markup.units",
       "values.cost.usage.value", "values.cost.usage.units",
       "values.cost.platform_distributed.value", "values.cost.platform_distributed.units",
       "values.cost.worker_unallocated_distributed.value",
       "values.cost.worker_unallocated_distributed.units",
       "values.cost.distributed.value", "values.cost.distributed.units",
       "values.cost.total.value", "values.cost.total.units",
       "values.delta_percent", "key", "values.delta_value"] ∧
    (all_data.project = [] → all_data.cluster = [] → all_data.node = [] →
      all_data.tag = [] → t.cells = []) := by
  unfold create_os_costs_daily at h
  split at h
  next prRows clRows ndRows tgRows hpr hcl hnd htg =>
    constructor
    · rw [← Option.some_inj.mp h]
      rfl
    · intro h1 h2 h3 h4
      rw [h1] at hpr; rw [h2] at hcl; rw [h3] at hnd; rw [h4] at htg
      simp only [collectSome, Option.some_inj] at hpr hcl hnd htg
      rw [← Option.some_inj.mp h, ← hpr, ← hcl, ← hnd, ← htg]
      rfl
  next => exact absurd h (by simp)

/-- The `all_data` of a run in which no dimension yielded any data. -/
def emptyAllData : AllData :=
  { cluster := [], node := [], project := [], tag := [], tag_key_name := some "produto" }

/-- Witness for C5 at the empty `all_data`: the table exists, carries the
fixed header, and has zero rows. -/
theorem os_costs_daily_columns_witness :
    (Table.columns ((create_os_costs_daily idEnv "BRL" emptyAllData).getD ⟨[], []⟩)).length = 42 ∧
    Table.cells ((create_os_costs_daily idEnv "BRL" emptyAllData).getD ⟨[], []⟩) = [] := by
  have h := os_costs_daily_columns idEnv "BRL" emptyAllData
    ((create_os_costs_daily idEnv "BRL" emptyAllData).getD ⟨[], []⟩) rfl
  exact ⟨by rw [h.1]; rfl, h.2 rfl rfl rfl rfl⟩

/-! ## Absent-date records (C9)

The daily and project↔tag builders skip items whose `date` is falsy
(`if not date: continue`); `create_os_cost_cluster_projects`
(lines 375-397) has no such check. -/

/-- Holds (`true`) for items the `if not date: continue` guards keep when `date` is
absent-or-null-insensitive: an item is dropped here exactly when it is a
dict whose `date` key is absent or null.  (Non-dict items are kept: both
sides raise identically on them.) -/
def keepsItem : JVal → Bool
  | .obj ifs =>
    match ifs.lookup "date" with
    | none => false
    | some .null => false
    | some _ => true
  | _ => true

/-- The per-dimension item lists with absent/null-date records removed. -/
def dropDatelessAD (ad : AllData) : AllData :=
  { cluster := ad.cluster.filter keepsItem
    node := ad.node.filter keepsItem
    project := ad.project.filter keepsItem
    tag := ad.tag.filter keepsItem
    tag_key_name := ad.tag_key_name }

lemma dateless_shape (item : JVal) (h : keepsItem item = false) :
    ∃ ifs, item = .obj ifs ∧ truthy (objGetD ifs "date" .null) = false := by
  cases item with
  | obj ifs =>
    refine ⟨ifs, rfl, ?_⟩
    simp only [keepsItem] at h
    cases hl : ifs.lookup "date" with
    | none => simp [objGetD, hl, truthy]
    | some v =>
      rw [hl] at h
      cases v with
      | null => simp [objGetD, hl, truthy]
      | num q => simp at h
      | str s => simp at h
      | bool b => simp at h
      | arr xs => simp at h
      | obj fs' => simp at h
  | null => simp [keepsItem] at h
  | num q => simp [keepsItem] at h
  | str s => simp [keepsItem] at h
  | bool b => simp [keepsItem] at h
  | arr xs => simp [keepsItem] at h

lemma collectSome_filter {α β : Type} (f : α → Option (List β)) (p : α → Bool)
    (hf : ∀ x, p x = false → f x = some []) :
    ∀ xs, collectSome f (xs.filter p) = collectSome f xs := by
  intro xs
  induction xs with
  | nil => rfl
  | cons x t ih =>
    by_cases hp : p x = true
    · simp only [List.filter, hp, collectSome, ih]
    · have hp' : p x = false := by simpa using hp
      rw [List.filter, hp']
      rw [collectSome, hf x hp', ih]
      cases hct : collectSome f t <;> simp

/-- C9 (amended).  Removing every record whose `date` is absent or null
from the input leaves the daily report and the project↔tag report
unchanged: those two builders derive no row from absent-date records.
(The claim's universal version over *every* report builder fails: see
`cluster_projects_keeps_dateless_record`.) -/
theorem dateless_records_discarded (env : PyEnv) (currency : String)
    (client : JVal → String → String → Option (List JVal))
    (start_date end_date : String) (ad : AllData) :
    create_os_costs_daily env currency (dropDatelessAD ad) =
      create_os_costs_daily env currency ad ∧
    create_os_cost_project_tags env currency client start_date end_date
        (dropDatelessAD ad) =
      create_os_cost_project_tags env currency client start_date end_date ad := by
  have hpr : ∀ x, keepsItem x = false → projectItemRows env currency x = some [] := by
    intro x hx
    obtain ⟨ifs, rfl, ht⟩ := dateless_shape x hx
    simp [projectItemRows, ht]
  have hcl : ∀ x, keepsItem x = false → clusterItemRows env currency x = some [] := by
    intro x hx
    obtain ⟨ifs, rfl, ht⟩ := dateless_shape x hx
    simp [clusterItemRows, ht]
  have hnd : ∀ x, keepsItem x = false → nodeItemRows env currency x = some [] := by
    intro x hx
    obtain ⟨ifs, rfl, ht⟩ := dateless_shape x hx
    simp [nodeItemRows, ht]
  have htg : ∀ x, keepsItem x = false →
      tagItemRows env currency (ad.tag_key_name.getD "produto") x = some [] := by
    intro x hx
    obtain ⟨ifs, rfl, ht⟩ := dateless_shape x hx
    simp [tagItemRows, ht]
  have hbp : ∀ x, keepsItem x = false → basePairsOfItem env x = some [] := by
    intro x hx
    obtain ⟨ifs, rfl, ht⟩ := dateless_shape x hx
    simp [basePairsOfItem, ht]
  constructor
  · unfold create_os_costs_daily
    simp only [dropDatelessAD]
    rw [collectSome_filter _ _ hpr, collectSome_filter _ _ hcl,
      collectSome_filter _ _ hnd, collectSome_filter _ _ htg]
  · unfold create_os_cost_project_tags
    simp only [dropDatelessAD]
    rw [collectSome_filter _ _ hbp]

/-! `create_os_cost_cluster_projects` (lines 375-397), which emits rows
even for records with no `date`. -/

/-- One output row of the cluster↔project report (lines 387-396):
`Filter Month` is formatted only when `date` is truthy, else `None`. -/
def cpRow (env : PyEnv) (currency : String) (date cluster pname total_value : JVal) : Row :=
  [("code", .str currency),
   ("Group By Code", .str "cluster"),
   ("cluster", cluster),
   ("date", env.to_datetime date),
   ("project", pname),
   ("value", total_value),
   ("units", .str currency),
   ("Filter Month",
    if truthy date then .str (env.formatMonth (env.to_datetime date)) else .null)]

/-- Rows from one `values` entry (lines 383-396):
`total = (value.get("cost", {}) or {}).get("total", {}) or {}` then
`total.get("value", 0) or 0`. -/
def cpValueRows (env : PyEnv) (currency : String) (date cluster pname v : JVal) :
    Option (List Row) :=
  match v with
  | .obj vfs =>
    match pyOr (objGetD vfs "cost" (.obj [])) (.obj []) with
    | .obj cfs =>
      match pyOr (objGetD cfs "total" (.obj [])) (.obj []) with
      | .obj tfs =>
        some [cpRow env currency date cluster pname
          (pyOr (objGetD tfs "value" (.num 0)) (.num 0))]
      | _ => none
    | _ => none
  | _ => none

/-- Rows from one project entry (lines 381-396): `project.get("project")`
with no default, `project.get("values", [])` iterated directly. -/
def cpProjectRows (env : PyEnv) (currency : String) (date cluster proj : JVal) :
    Option (List Row) :=
  match proj with
  | .obj pfs =>
    match pyIter (objGetD pfs "values" (.arr [])) with
    | none => none
    | some vals =>
      collectSome
        (cpValueRows env currency date cluster (objGetD pfs "project" .null)) vals
  | _ => none

/-- Rows from one fetched item (lines 377-396): `item.get("date")` and
`item.get("_cluster")` are read but there is no date check. -/
def cpItemRows (env : PyEnv) (currency : String) (item : JVal) : Option (List Row) :=
  match item with
  | .obj ifs =>
    match pyIter (objGetD ifs "projects" (.arr [])) with
    | none => none
    | some projs =>
      collectSome
        (cpProjectRows env currency (objGetD ifs "date" .null)
          (objGetD ifs "_cluster" .null)) projs
  | _ => none

/-- Models `ExcelFormatterFixed.create_os_cost_cluster_projects` (lines 375-397). -/
def create_os_cost_cluster_projects (env : PyEnv) (currency : String)
    (cluster_project_data : List JVal) : Option (List Row) :=
  collectSome (cpItemRows env currency) cluster_project_data

/-- A fetched cost record with no `date` key at all. -/
def datelessItem : JVal :=
  .obj [("_cluster", .str "prod-east"),
        ("projects", .arr [.obj [("project", .str "billing"),
                                 ("values", .arr [.obj []])]])]

/-- Counterexample to C9 as stated: the cluster↔project report builder does
NOT discard absent-date records — fed a single record with no `date` key it
still emits one row (with a null date), so "no flattened row in any
assembled report is derived from that record" is false. -/
theorem cluster_projects_keeps_dateless_record :
    create_os_cost_cluster_projects idEnv "BRL" [datelessItem] =
      some [cpRow idEnv "BRL" .null (.str "prod-east") (.str "billing") (.num 0)] := rfl

/-! ## Group-by extractor (C6)

`OpenShiftCostAPIClient.get_costs_by_groupby`
(`OS_Costs_Daily_Duplicadas.py` lines 110-185, identical in
`OS_Costs_Daily.py` lines 108-185): each of the four dimension fetches runs
inside its own `try`; an exception logs a warning and moves on, and the
final `setdefault` loop leaves `[]` for every dimension that stored
nothing. -/

/-- The page limit hard-coded in the loop (`limit = 250`). -/
def groupby_page_limit : Nat := 250

/-- Models `get_costs_by_groupby`, abstracted over the HTTP layer: `api gtype off`
is the response for the page of dimension `gtype` at offset `off` (the four
`group_by` parameter sets are what distinguish the dimensions' requests).
A failed dimension (its `paginate` run raises, `none`) contributes nothing;
`_tag_key_name` is recorded only when the `tag:produto` fetch succeeds. -/
def get_costs_by_groupby (api : String → Nat → Option Page) (fuel : Nat) : AllData :=
  let cl := paginate (api "cluster") groupby_page_limit fuel 0 [] 1
  let nd := paginate (api "node") groupby_page_limit fuel 0 [] 1
  let pr := paginate (api "project") groupby_page_limit fuel 0 [] 1
  let tg := paginate (api "tag:produto") groupby_page_limit fuel 0 [] 1
  { cluster := (cl.map Prod.fst).getD []
    node := (nd.map Prod.fst).getD []
    project := (pr.map Prod.fst).getD []
    tag := (tg.map Prod.fst).getD []
    tag_key_name := if tg.isSome then some "produto" else none }

/-- C6.  Whichever of the four dimensions' fetches fails, the extractor
(which always returns an `AllData` — the run continues rather than
aborting) stores the empty list for exactly that dimension and the daily
report renders no rows for it, while every dimension is determined solely
by its own fetch result, so the data collected for the other dimensions is
unaffected.  A tag failure additionally leaves `_tag_key_name` unset (a
successful tag fetch records `"produto"`; readers fall back to `"produto"`
either way). -/
theorem dimension_failure_isolated (env : PyEnv) (currency : String)
    (api : String → Nat → Option Page) (fuel : Nat) :
    (paginate (api "cluster") groupby_page_limit fuel 0 [] 1 = none →
      (get_costs_by_groupby api fuel).cluster = [] ∧
      collectSome (clusterItemRows env currency)
        (get_costs_by_groupby api fuel).cluster = some []) ∧
    (∀ res, paginate (api "cluster") groupby_page_limit fuel 0 [] 1 = some res →
      (get_costs_by_groupby api fuel).cluster = res.1) ∧
    (paginate (api "node") groupby_page_limit fuel 0 [] 1 = none →
      (get_costs_by_groupby api fuel).node = [] ∧
      collectSome (nodeItemRows env currency)
        (get_costs_by_groupby api fuel).node = some []) ∧
    (∀ res, paginate (api "node") groupby_page_limit fuel 0 [] 1 = some res →
      (get_costs_by_groupby api fuel).node = res.1) ∧
    (paginate (api "project") groupby_page_limit fuel 0 [] 1 = none →
      (get_costs_by_groupby api fuel).project = [] ∧
      collectSome (projectItemRows env currency)
        (get_costs_by_groupby api fuel).project = some []) ∧
    (∀ res, paginate (api "project") groupby_page_limit fuel 0 [] 1 = some res →
      (get_costs_by_groupby api fuel).project = res.1) ∧
    (paginate (api "tag:produto") groupby_page_limit fuel 0 [] 1 = none →
      (get_costs_by_groupby api fuel).tag = [] ∧
      (get_costs_by_groupby api fuel).tag_key_name = none ∧
      collectSome
        (tagItemRows env currency
          ((get_costs_by_groupby api fuel).tag_key_name.getD "produto"))
        (get_costs_by_groupby api fuel).tag = some []) ∧
    (∀ res, paginate (api "tag:produto") groupby_page_limit fuel 0 [] 1 = some res →
      (get_costs_by_groupby api fuel).tag = res.1 ∧
      (get_costs_by_groupby api fuel).tag_key_name = some "produto") := by
  refine ⟨fun h => ?_, fun res h => ?_, fun h => ?_, fun res h => ?_,
    fun h => ?_, fun res h => ?_, fun h => ?_, fun res h => ?_⟩ <;>
    simp [get_costs_by_groupby, h, collectSome]

/-- A mock HTTP layer whose project fetch raises and whose other dimensions
return a single empty page. -/
def apiProjectFails : String → Nat → Option Page :=
  fun gtype _ => if gtype == "project" then none else some { data := [], count := 0 }

/-- A mock HTTP layer whose tag fetch raises and whose other dimensions
return a single empty page. -/
def apiTagFails : String → Nat → Option Page :=
  fun gtype _ => if gtype == "tag:produto" then none else some { data := [], count := 0 }

/-- Witness for C6: a failed tag fetch empties `tag`, clears
`_tag_key_name` and leaves the other dimensions at their fetched items; a
failed project fetch likewise only empties `project`. -/
theorem dimension_failure_isolated_witness :
    ((get_costs_by_groupby apiTagFails 1).tag = [] ∧
     (get_costs_by_groupby apiTagFails 1).tag_key_name = none ∧
     (get_costs_by_groupby apiTagFails 1).cluster = [] ∧
     (get_costs_by_groupby apiTagFails 1).node = [] ∧
     (get_costs_by_groupby apiTagFails 1).project = []) ∧
    ((get_costs_by_groupby apiProjectFails 1).project = [] ∧
     collectSome (projectItemRows idEnv "BRL")
       (get_costs_by_groupby apiProjectFails 1).project = some [] ∧
     (get_costs_by_groupby apiProjectFails 1).tag_key_name = some "produto") := by
  obtain ⟨_, hc2, _, hn2, _, hp2, ht1, _⟩ :=
    dimension_failure_isolated idEnv "BRL" apiTagFails 1
  obtain ⟨_, _, _, _, kp1, _, _, kt2⟩ :=
    dimension_failure_isolated idEnv "BRL" apiProjectFails 1
  exact ⟨⟨(ht1 rfl).1, (ht1 rfl).2.1, hc2 ([], 1) rfl, hn2 ([], 1) rfl,
    hp2 ([], 1) rfl⟩, ⟨(kp1 rfl).1, (kp1 rfl).2, (kt2 ([], 1) rfl).2⟩⟩

/-! ## Token manager (C7)

`OpenShiftCostAPIClient._get_token` (`OS_Costs_Daily_Duplicadas.py`
lines 77-98, identical in `OS_Costs_Daily.py` lines 75-96). -/

/-- The token cache held on the client (`self.access_token`,
`self.token_expires_at`); time is seconds on an integer clock. -/
structure TokenState where
  access_token : Option String
  token_expires_at : Option Int

/-- The parsed identity response: `token_response["access_token"]` (a
`KeyError` would raise before any caching) and
`token_response.get("expires_in", 900)`. -/
structure TokenResponse where
  access_token : String
  expires_in : Int

/-- The form body of the client-credentials POST (lines 82-86). -/
def auth_data (client_id client_secret : String) : List (String × String) :=
  [("grant_type", "client_credentials"),
   ("client_id", client_id),
   ("client_secret", client_secret)]

/-- The refresh path (lines 81-98): POST `auth_data`, cache the returned
token, record expiry `now + (expires_in - 60)`, return the token.  `post`
models `session.post(...).json()`; `none` is a raised HTTP/parse error. -/
def fetch_new_token (client_id client_secret : String)
    (post : List (String × String) → Option TokenResponse) (now : Int) :
    Option (String × TokenState) :=
  (post (auth_data client_id client_secret)).map (fun r =>
    (r.access_token,
     { access_token := some r.access_token
       token_expires_at := some (now + (r.expires_in - 60)) }))

/-- Models `_get_token` (lines 77-98): return the cached token when
`self.access_token and self.token_expires_at and datetime.now() < self.token_expires_at`
(a cached empty string is falsy and triggers a refresh), else refresh. -/
def get_token (client_id client_secret : String)
    (post : List (String × String) → Option TokenResponse) (now : Int)
    (st : TokenState) : Option (String × TokenState) :=
  match st.access_token, st.token_expires_at with
  | some tok, some exp =>
    if tok ≠ "" ∧ now < exp then some (tok, st)
    else fetch_new_token client_id client_secret post now
  | _, _ => fetch_new_token client_id client_secret post now

/-- C7.  The token manager returns the cached token whenever a (non-empty)
token is cached and the clock is before its recorded expiry; otherwise —
first call (no token cached) or expiry passed — it POSTs the
client-credentials body `{grant_type, client_id, client_secret}`, caches the
returned `access_token`, and records the expiry as the acquisition time plus
`expires_in` minus a 60-second safety margin. -/
theorem token_manager_cache (client_id client_secret : String)
    (post : List (String × String) → Option TokenResponse) (now : Int)
    (st : TokenState) :
    (∀ tok exp, st.access_token = some tok → st.token_expires_at = some exp →
      tok ≠ "" → now < exp →
      get_token client_id client_secret post now st = some (tok, st)) ∧
    (st.access_token = none →
      get_token client_id client_secret post now st =
        (post [("grant_type", "client_credentials"), ("client_id", client_id),
               ("client_secret", client_secret)]).map (fun r =>
          (r.access_token,
           { access_token := some r.access_token
             token_expires_at := some (now + (r.expires_in - 60)) }))) ∧
    (∀ exp, st.token_expires_at = some exp → exp ≤ now →
      get_token client_id client_secret post now st =
        (post [("grant_type", "client_credentials"), ("client_id", client_id),
               ("client_secret", client_secret)]).map (fun r =>
          (r.access_token,
           { access_token := some r.access_token
             token_expires_at := some (now + (r.expires_in - 60)) }))) := by
  refine ⟨fun tok exp h1 h2 hne hlt => ?_, fun h1 => ?_, fun exp h2 hle => ?_⟩
  · simp [get_token, h1, h2, hne, hlt]
  · cases h3 : st.token_expires_at <;>
      simp [get_token, h1, h3, fetch_new_token, auth_data]
  · cases h1 : st.access_token with
    | none => simp [get_token, h1, h2, fetch_new_token, auth_data]
    | some tok =>
      have : ¬(tok ≠ "" ∧ now < exp) := fun hc => absurd hc.2 (by omega)
      simp [get_token, h1, h2, this, fetch_new_token, auth_data]

/-- Witness for C7: a cached valid token is returned unchanged; an expired
cache at the same clock triggers the POST and records `now + expires_in - 60`. -/
theorem token_manager_cache_witness :
    get_token "id" "secret" (fun _ => some ⟨"tok2", 900⟩) 100
        ⟨some "tok1", some 200⟩ = some ("tok1", ⟨some "tok1", some 200⟩) ∧
    get_token "id" "secret" (fun _ => some ⟨"tok2", 900⟩) 300
        ⟨some "tok1", some 200⟩ =
      some ("tok2", ⟨some "tok2", some (300 + (900 - 60))⟩) := by
  constructor
  · exact (token_manager_cache "id" "secret" (fun _ => some ⟨"tok2", 900⟩) 100
      ⟨some "tok1", some 200⟩).1 "tok1" 200 rfl rfl (by decide) (by decide)
  · exact ((token_manager_cache "id" "secret" (fun _ => some ⟨"tok2", 900⟩) 300
      ⟨some "tok1", some 200⟩).2.2 200 rfl (by decide)).trans rfl

/-! ## Configuration (C8)

`APIConfig.__init__` (`OS_Costs_Daily.py` lines 37-48, identical in
`OS_Costs_Daily_Duplicadas.py` lines 40-51) versus `Config.__init__`
(`codigos/openshift_cost_extractor_v6_0_2_FIXED.py` lines 49-66). -/

/-- The fields `APIConfig.__init__` sets. -/
structure APIConfig where
  client_id : String
  client_secret : String
  auth_url : String
  api_base_url : String
  timeout : Nat
  max_retries : Nat
  backoff_factor : ℚ

/-- Models `APIConfig.__init__`: `os.getenv("OPENSHIFT_CLIENT_ID", "")` — missing
environment variables silently default to the empty string; construction
never fails.  `getenv` models `os.getenv` (`none` = variable absent). -/
def APIConfig_init (getenv : String → Option String) : APIConfig :=
  { client_id := (getenv "OPENSHIFT_CLIENT_ID").getD ""
    client_secret := (getenv "OPENSHIFT_CLIENT_SECRET").getD ""
    auth_url :=
      "https://sso.redhat.com/auth/realms/redhat-external/protocol/openid-connect/token"
    api_base_url := "https://console.redhat.com/api/cost-management/v1"
    timeout := 30
    max_retries := 3
    backoff_factor := 1 / 2 }

/-- The fields `Config.__init__` (v6_0_2) sets. -/
structure ConfigV6 where
  console_url : String
  client_id : String
  client_secret : String
  timeout : Nat
  max_retries : Nat

/-- The `ValueError` message of `Config.__init__`. -/
def configErrorMsg : String :=
  "ERRO: Variáveis de ambiente não configuradas!\nConfigure: OPENSHIFT_CLIENT_ID e OPENSHIFT_CLIENT_SECRET"

/-- Models `Config.__init__` (v6_0_2 lines 49-66): reads the two credential
variables with no default and raises `ValueError` when either is falsy
(absent or empty), before any network request is possible. -/
def Config_init (getenv : String → Option String) : Except String ConfigV6 :=
  if (getenv "OPENSHIFT_CLIENT_ID").getD "" = "" ∨
     (getenv "OPENSHIFT_CLIENT_SECRET").getD "" = "" then
    .error configErrorMsg
  else
    .ok { console_url := (getenv "CONSOLE_URL").getD "https://console.redhat.com"
          client_id := (getenv "OPENSHIFT_CLIENT_ID").getD ""
          client_secret := (getenv "OPENSHIFT_CLIENT_SECRET").getD ""
          timeout := 30
          max_retries := 3 }

/-- Counterexample to C8 as stated: with both environment variables absent,
`APIConfig.__init__` (the OS_Costs_Daily scripts' configuration setup) does
NOT fail — it succeeds with empty-string credentials, so those programs do
not fail fast during configuration setup. -/
theorem apiconfig_missing_env_succeeds :
    APIConfig_init (fun _ => none) =
      { client_id := ""
        client_secret := ""
        auth_url :=
          "https://sso.redhat.com/auth/realms/redhat-external/protocol/openid-connect/token"
        api_base_url := "https://console.redhat.com/api/cost-management/v1"
        timeout := 30
        max_retries := 3
        backoff_factor := 1 / 2 } := rfl

/-- C8 (amended).  When either credential variable is absent, the v6_0_2
`Config.__init__` fails fast with its configuration `ValueError` during
construction (before any network request), while the OS_Costs_Daily
`APIConfig.__init__` does not fail: it defaults the missing credentials to
empty strings. -/
theorem config_missing_env (getenv : String → Option String)
    (h : getenv "OPENSHIFT_CLIENT_ID" = none ∨
         getenv "OPENSHIFT_CLIENT_SECRET" = none) :
    Config_init getenv = .error configErrorMsg ∧
    (getenv "OPENSHIFT_CLIENT_ID" = none →
      (APIConfig_init getenv).client_id = "") ∧
    (getenv "OPENSHIFT_CLIENT_SECRET" = none →
      (APIConfig_init getenv).client_secret = "") := by
  refine ⟨?_, fun h1 => by simp [APIConfig_init, h1], fun h2 => by simp [APIConfig_init, h2]⟩
  rcases h with h | h <;> simp [Config_init, h]

/-- Witness for C8 (amended) with both variables absent. -/
theorem config_missing_env_witness :
    Config_init (fun _ => none) = .error configErrorMsg ∧
    (APIConfig_init (fun _ => none)).client_id = "" ∧
    (APIConfig_init (fun _ => none)).client_secret = "" := by
  have h := config_missing_env (fun _ => none) (Or.inl rfl)
  exact ⟨h.1, h.2.1 rfl, h.2.2 rfl⟩

end OSCost
